import Mathlib

/-!
Verification of the filter-driven aggregation pipeline of `src/app.py`
(an education-enrollment dashboard).

The embedding models the pandas data frame `df` and the callback
`update_dashboard` as pure functions over lists of records:

* a raw cell that `pd.to_numeric(..., errors="coerce")` parses is `some q`,
  an unparseable one (NaN) is `none`; float cell values are embedded as
  exact rationals (binary floating-point rounding noise is out of scope);
* `.fillna(0)` is `Option.getD · 0` (`coerce`);
* each data-frame row becomes a `Record`; frame-level column presence
  (`c in df.columns`) is the `cols` list of `Loaded`;
* `String.startsWith` on column names is embedded via `List.isPrefixOf`
  on the underlying character lists (the two agree on every string) so
  that statements reduce in the kernel; likewise the lexicographic string
  order used by `groupby`'s sorted keys is the order on `String.data`;
* Python's `int(...)` on a float sum is truncation toward zero (`pyInt`),
  and `round(x, 2)` is rounding half-to-even at two decimals (`pyRound2`);
* pandas `groupby(k)[v].sum()` is modeled as an explicit map over the
  sorted distinct keys, summing over the matching rows; `idxmax` keeps the
  first (hence lexicographically least) key attaining the maximum;
* `Series.nlargest(15)` keeps the top 15 by value, ties resolved by
  position in the series — since `groupby` sorts keys ascending this is
  the lexicographic order (value descending, then name ascending), modeled
  by sorting with exactly that total order; the final
  `sort_values("TOTAL", ascending=True)` on the at-most-15 survivors is
  stable in pandas for such small frames, modeled by the total order
  (value ascending, then name ascending).
-/

namespace App

/-- Coercion of one raw numeric cell:
`pd.to_numeric(x, errors="coerce").fillna(0)` (src/app.py line 24).
A parse failure (NaN) becomes `0`; a parsed value passes through. -/
def coerce (v : Option ℚ) : ℚ := v.getD 0

/-- Column-name test `c.startswith("matriculacion_fem")` (line 18). -/
def isFemCol (c : String) : Bool := "matriculacion_fem".data.isPrefixOf c.data

/-- Column-name test `c.startswith("matriculacion_masc")` (line 19). -/
def isMascCol (c : String) : Bool := "matriculacion_masc".data.isPrefixOf c.data

/-- Column-name test `c.startswith("tasa")` (line 20). -/
def isTasaCol (c : String) : Bool := "tasa".data.isPrefixOf c.data

/-- Column-name test `c.startswith("ipg")` (line 21). -/
def isIpgCol (c : String) : Bool := "ipg".data.isPrefixOf c.data

/-- One raw row of the fetched JSON table, after per-cell parsing:
`departamento`, the parse result of `anno_inf` (line 27; `none` for a
missing or unparseable year) and the parse results of the numeric
(`matriculacion_*` / `tasa*` / `ipg*`) cells, keyed by column name. -/
structure RawRow where
  departamento : String
  anno_inf : Option ℤ
  cells : List (String × Option ℚ)
deriving DecidableEq

/-- One normalized record: the coerced numeric columns (with the derived
`TOTAL_FEM`, `TOTAL_MASC`, `TOTAL` columns prepended, shadowing any raw
column of the same name, as the assignments on lines 29-31 overwrite), and
the derived totals as fields. -/
structure Record where
  departamento : String
  anno_inf : Option ℤ
  num : List (String × ℚ)
  TOTAL_FEM : ℚ
  TOTAL_MASC : ℚ
  TOTAL : ℚ
deriving DecidableEq

/-- Numeric value of column `c` in record `r` (a data-frame cell read). -/
def Record.cell (r : Record) (c : String) : ℚ := (List.lookup c r.num).getD 0

/-- Normalization of one raw row (lines 23-31): coerce every numeric cell,
then derive `TOTAL_FEM = df[col_fem].sum(axis=1)`,
`TOTAL_MASC = df[col_masc].sum(axis=1)` and
`TOTAL = TOTAL_FEM + TOTAL_MASC`. `cols` is the frame's column list, from
which `col_fem` / `col_masc` are computed by name prefix (lines 18-19). -/
def normalizeRow (cols : List String) (rr : RawRow) : Record :=
  let coerced := rr.cells.map (fun p => (p.1, coerce p.2))
  let tf := ((cols.filter isFemCol).map (fun c => (List.lookup c coerced).getD 0)).sum
  let tm := ((cols.filter isMascCol).map (fun c => (List.lookup c coerced).getD 0)).sum
  { departamento := rr.departamento
    anno_inf := rr.anno_inf
    num := ("TOTAL", tf + tm) :: ("TOTAL_FEM", tf) :: ("TOTAL_MASC", tm) :: coerced
    TOTAL_FEM := tf
    TOTAL_MASC := tm
    TOTAL := tf + tm }

/-- Lexicographic order on strings through their character lists; the order
`sorted(...)` and pandas' sorted `groupby` keys use on string keys. -/
def nameLe (a b : String) : Prop := a.data ≤ b.data

instance : DecidableRel nameLe :=
  fun a b => inferInstanceAs (Decidable (a.data ≤ b.data))

instance : IsTotal String nameLe := ⟨fun a b => le_total a.data b.data⟩

instance : IsTrans String nameLe := ⟨fun _ _ _ h h2 => le_trans h h2⟩

/-- The module-level loaded state built by the `try` block (lines 14-35):
the frame's columns (with the three derived total columns appended), the
flag `"anno_inf" in df.columns`, the normalized rows, and the dimension
catalogs `years` and `depts` (lines 33-34). -/
structure Loaded where
  cols : List String
  hasYearCol : Bool
  rows : List Record
  years : List ℤ
  depts : List String
deriving DecidableEq

/-- Successful load (lines 14-35): normalize every row and build the
dimension catalogs. `years` is `sorted(df["anno_inf"].dropna().unique())`
when the year column exists, `[]` otherwise (line 33); `depts` is
`sorted(df["departamento"].dropna().unique())` (line 34). -/
def mkLoaded (cols : List String) (hasYearCol : Bool) (raws : List RawRow) : Loaded :=
  { cols := cols ++ ["TOTAL_FEM", "TOTAL_MASC", "TOTAL"]
    hasYearCol := hasYearCol
    rows := raws.map (normalizeRow cols)
    years := if hasYearCol then
        List.insertionSort (fun a b => a ≤ b) (raws.filterMap RawRow.anno_inf).dedup
      else []
    depts := List.insertionSort nameLe (raws.map RawRow.departamento).dedup }

/-- The fallback state of the `except` branch (lines 37-40):
`df = pd.DataFrame()` (no columns, no rows), `years, depts = [], []`. -/
def emptyLoaded : Loaded :=
  { cols := [], hasYearCol := false, rows := [], years := [], depts := [] }

/-- The whole load boundary (lines 14-40): a successful fetch+parse is
normalized; any failure of the raw load falls back to the empty state. -/
def loadData (fetched : Except String (List String × Bool × List RawRow)) : Loaded :=
  match fetched with
  | .ok (cols, hy, raws) => mkLoaded cols hy raws
  | .error _ => emptyLoaded

/-- Year filter (lines 134-135): `if filtro_ano:` is Python truthiness, so
`None` and `0` leave the view unrestricted; otherwise keep the rows with
`d["anno_inf"] == int(filtro_ano)` (a NaN year never equals a number). -/
def applyYearFilter (filtro_ano : Option ℤ) (d : List Record) : List Record :=
  match filtro_ano with
  | none => d
  | some y => if y = 0 then d else d.filter (fun r => r.anno_inf == some y)

/-- Department filter (lines 136-137): only a non-empty selection
restricts, to the rows with `d["departamento"].isin(filtro_dep)`. -/
def applyDeptFilter (filtro_dep : List String) (d : List Record) : List Record :=
  if filtro_dep.isEmpty then d
  else d.filter (fun r => filtro_dep.contains r.departamento)

/-- The filtered view: year filter then department filter (lines 134-137). -/
def filterView (d : List Record) (filtro_ano : Option ℤ) (filtro_dep : List String) :
    List Record :=
  applyDeptFilter filtro_dep (applyYearFilter filtro_ano d)

/-- Python `int(...)` applied to a (float) rational: truncation toward
zero, which on a reduced fraction is t-division of numerator by
denominator. -/
def pyInt (q : ℚ) : ℤ := q.num.tdiv q.den

/-- Floor of a rational without going through type-class floor (so that
concrete instances reduce in the kernel): floor-division of the numerator
by the (positive) denominator. -/
def ratFloor (q : ℚ) : ℤ := Int.fdiv q.num q.den

/-- Python `round(x)` to an integer: nearest, ties to even. -/
def pyRoundInt (q : ℚ) : ℤ :=
  let f := ratFloor q
  if q - f < 1/2 then f
  else if 1/2 < q - f then f + 1
  else if f % 2 = 0 then f else f + 1

/-- Python `round(x, 2)` (line 141): round the value scaled by 100 to the
nearest integer, ties to even, and scale back. -/
def pyRound2 (q : ℚ) : ℚ := (pyRoundInt (q * 100) : ℚ) / 100

/-- KPI `tf = int(d["TOTAL_FEM"].sum())` (line 139). -/
def kpi_tf (d : List Record) : ℤ := pyInt (d.map Record.TOTAL_FEM).sum

/-- KPI `tm = int(d["TOTAL_MASC"].sum())` (line 140). -/
def kpi_tm (d : List Record) : ℤ := pyInt (d.map Record.TOTAL_MASC).sum

/-- KPI `ipg = round((tf/tm), 2) if tm > 0 else 0` (line 141): `tf/tm` is
Python true division of the two integer KPIs. -/
def kpi_ipg (d : List Record) : ℚ :=
  if 0 < kpi_tm d then pyRound2 ((kpi_tf d : ℚ) / (kpi_tm d : ℚ)) else 0

/-- The distinct department keys of a view, sorted ascending — pandas
`groupby("departamento")` sorts its keys. -/
def deptKeys (d : List Record) : List String :=
  List.insertionSort nameLe (d.map Record.departamento).dedup

/-- Summed `TOTAL` of one department group:
`d.groupby("departamento")["TOTAL"].sum()` at key `k`. -/
def deptTotal (d : List Record) (k : String) : ℚ :=
  ((d.filter (fun r => r.departamento == k)).map Record.TOTAL).sum

/-- The grouped series `d.groupby("departamento")["TOTAL"].sum()`:
one `(department, summed TOTAL)` pair per distinct department, keys
ascending. -/
def groupDept (d : List Record) : List (String × ℚ) :=
  (deptKeys d).map (fun k => (k, deptTotal d k))

/-- Series `idxmax`: the key of the first entry attaining the maximal
value (`best` is the running first maximum). -/
def idxmaxAux : (String × ℚ) → List (String × ℚ) → (String × ℚ)
  | best, [] => best
  | best, p :: rest => idxmaxAux (if best.2 < p.2 then p else best) rest

/-- KPI `top_dep` (line 142):
`d.groupby("departamento")["TOTAL"].sum().idxmax() if not d.empty else "-"`.
The inner `[] => "-"` branch is unreachable: a non-empty view has at least
one department key. -/
def top_dep (d : List Record) : String :=
  if d.isEmpty then "-"
  else
    match groupDept d with
    | [] => "-"
    | g :: gs => (idxmaxAux g gs).1

/-- Total order "summed total descending, department name ascending":
the order in which `Series.nlargest` (keep="first") emits the entries of
the name-ascending grouped series (line 182). -/
def rankDescRel (a b : String × ℚ) : Prop := b.2 < a.2 ∨ (a.2 = b.2 ∧ nameLe a.1 b.1)

/-- Total order "summed total ascending, department name ascending": the
display order after `sort_values("TOTAL", ascending=True)` (line 182),
which is stable on the at-most-15 surviving entries. -/
def rankAscRel (a b : String × ℚ) : Prop := a.2 < b.2 ∨ (a.2 = b.2 ∧ nameLe a.1 b.1)

instance : DecidableRel rankDescRel := fun a b =>
  inferInstanceAs (Decidable (b.2 < a.2 ∨ (a.2 = b.2 ∧ nameLe a.1 b.1)))

instance : DecidableRel rankAscRel := fun a b =>
  inferInstanceAs (Decidable (a.2 < b.2 ∨ (a.2 = b.2 ∧ nameLe a.1 b.1)))

instance : IsTotal ℤ (fun a b : ℤ => a ≤ b) := ⟨le_total⟩

instance : IsTrans ℤ (fun a b : ℤ => a ≤ b) := ⟨fun _ _ _ h h2 => le_trans h h2⟩

instance : IsTotal (String × ℚ) rankDescRel := by
  constructor
  intro a b
  rcases lt_trichotomy a.2 b.2 with h | h | h
  · exact Or.inr (Or.inl h)
  · rcases le_total a.1.data b.1.data with hn | hn
    · exact Or.inl (Or.inr ⟨h, hn⟩)
    · exact Or.inr (Or.inr ⟨h.symm, hn⟩)
  · exact Or.inl (Or.inl h)

instance : IsTrans (String × ℚ) rankDescRel := by
  constructor
  intro a b c hab hbc
  rcases hab with h1 | ⟨h1e, h1n⟩ <;> rcases hbc with h2 | ⟨h2e, h2n⟩
  · exact Or.inl (lt_trans h2 h1)
  · exact Or.inl (by rw [← h2e]; exact h1)
  · exact Or.inl (by rw [h1e]; exact h2)
  · exact Or.inr ⟨h1e.trans h2e, le_trans h1n h2n⟩

instance : IsTotal (String × ℚ) rankAscRel := by
  constructor
  intro a b
  rcases lt_trichotomy a.2 b.2 with h | h | h
  · exact Or.inl (Or.inl h)
  · rcases le_total a.1.data b.1.data with hn | hn
    · exact Or.inl (Or.inr ⟨h, hn⟩)
    · exact Or.inr (Or.inr ⟨h.symm, hn⟩)
  · exact Or.inr (Or.inl h)

instance : IsTrans (String × ℚ) rankAscRel := by
  constructor
  intro a b c hab hbc
  rcases hab with h1 | ⟨h1e, h1n⟩ <;> rcases hbc with h2 | ⟨h2e, h2n⟩
  · exact Or.inl (lt_trans h1 h2)
  · exact Or.inl (by rw [← h2e]; exact h1)
  · exact Or.inl (by rw [h1e]; exact h2)
  · exact Or.inr ⟨h1e.trans h2e, le_trans h1n h2n⟩

/-- `d.groupby("departamento")["TOTAL"].sum().nlargest(15)` (line 182). -/
def top15 (d : List Record) : List (String × ℚ) :=
  (List.insertionSort rankDescRel (groupDept d)).take 15

/-- The department ranking `top_df` of the GEOGRAFÍA tab (line 182):
group by department, sum `TOTAL`, keep the 15 largest, re-sort those
ascending by total for display. -/
def deptRanking (d : List Record) : List (String × ℚ) :=
  List.insertionSort rankAscRel (top15 d)

/-- The distinct parsed years of a view, ascending — `groupby("anno_inf")`
drops NA keys and sorts the rest. -/
def yearKeys (d : List Record) : List ℤ :=
  List.insertionSort (fun a b => a ≤ b) (d.filterMap Record.anno_inf).dedup

/-- One row of the trend frame:
`d.groupby("anno_inf")[["TOTAL_FEM","TOTAL_MASC","TOTAL"]].sum()` at a
year key. -/
def yearRow (d : List Record) (y : ℤ) : ℤ × ℚ × ℚ × ℚ :=
  let dy := d.filter (fun r => r.anno_inf == some y)
  (y, (dy.map Record.TOTAL_FEM).sum, (dy.map Record.TOTAL_MASC).sum,
    (dy.map Record.TOTAL).sum)

/-- The trend series of the TENDENCIAS tab (line 171). -/
def yearlyTrend (d : List Record) : List (ℤ × ℚ × ℚ × ℚ) :=
  (yearKeys d).map (yearRow d)

/-- The fixed five age groups (lines 42-48):
`(label, female column, male column)`. -/
def age_groups : List (String × String × String) :=
  [("3y4", "matriculacion_fem_3y4", "matriculacion_masc_3y4"),
   ("5", "matriculacion_fem_5", "matriculacion_masc_5"),
   ("6a10", "matriculacion_fem_6a10", "matriculacion_masc_6a10"),
   ("11a14", "matriculacion_fem_11a14", "matriculacion_masc_11a14"),
   ("15y16", "matriculacion_fem_15y16", "matriculacion_masc_15y16")]

/-- `d[c].sum() if c in d else 0` (line 192): a column absent from the
frame contributes a literal 0. -/
def ageSum (L : Loaded) (d : List Record) (c : String) : ℚ :=
  if L.cols.contains c then (d.map (fun r => r.cell c)).sum else 0

/-- The `Fem` column of the age frame `sdf` (lines 190-193). -/
def ageFem (L : Loaded) (d : List Record) : List ℚ :=
  age_groups.map (fun g => ageSum L d g.2.1)

/-- The `Masc` column of the age frame `sdf` (lines 190-193). -/
def ageMasc (L : Loaded) (d : List Record) : List ℚ :=
  age_groups.map (fun g => ageSum L d g.2.2)

/-- The chart payload handed to the presentation layer, one constructor
per branch of the tab dispatch (lines 169-213). The correlation chart is
`px.imshow(d[cols].corr())`: the Pearson matrix is a pure function of the
selected columns and the filtered rows, both of which the payload
carries. -/
inductive Content where
  | trendSeries (pts : List (ℤ × ℚ × ℚ × ℚ))
  | trendNoYearData
  | deptChart (entries : List (String × ℚ))
  | ageChart (groups : List String) (fem : Option (List ℚ)) (masc : Option (List ℚ))
  | corrChart (cols : List String) (rows : List Record)
  | corrInsufficient
deriving DecidableEq

/-- TENDENCIAS branch (lines 169-178): the grouped trend when the frame
has the year column, the "Sin datos de año" annotation otherwise. -/
def trendContent (L : Loaded) (d : List Record) : Content :=
  if L.hasYearCol then .trendSeries (yearlyTrend d) else .trendNoYearData

/-- DEMOGRAFÍA branch (lines 189-202): bar series per age group; the
female trace is added only when `filtro_genero in ["both", "fem"]`, the
male trace only when `filtro_genero in ["both", "masc"]` (lines 196-199),
so an unselected series is absent, not zero. -/
def ageContent (L : Loaded) (d : List Record) (filtro_genero : String) : Content :=
  .ageChart (age_groups.map (fun g => g.1))
    (if filtro_genero = "both" ∨ filtro_genero = "fem" then some (ageFem L d) else none)
    (if filtro_genero = "both" ∨ filtro_genero = "masc" then some (ageMasc L d) else none)

/-- The correlation column selection (lines 205-206):
`["TOTAL","TOTAL_FEM","TOTAL_MASC"] + col_tasa[:3] + col_ipg[:3]`,
restricted to the columns present in the frame. `col_tasa` / `col_ipg`
are the module-level prefix-filtered column lists (lines 20-21). -/
def corrCols (L : Loaded) : List String :=
  (["TOTAL", "TOTAL_FEM", "TOTAL_MASC"]
      ++ (L.cols.filter isTasaCol).take 3
      ++ (L.cols.filter isIpgCol).take 3).filter (fun c => L.cols.contains c)

/-- CORRELACIONES branch (lines 204-213): the Pearson matrix payload when
more than one column survives, the "Datos insuficientes" annotation
otherwise. -/
def corrContent (L : Loaded) (d : List Record) : Content :=
  if 1 < (corrCols L).length then .corrChart (corrCols L) d else .corrInsufficient

/-- The tab dispatch (lines 169-213): `tab_trend`, `tab_dept` and
`tab_age` have their own branches; every other tab value (including
`tab_corr` and any unrecognized one) takes the final `else`, the
correlation branch. -/
def tabContent (L : Loaded) (d : List Record) (filtro_genero active_tab : String) :
    Content :=
  if active_tab = "tab_trend" then trendContent L d
  else if active_tab = "tab_dept" then .deptChart (deptRanking d)
  else if active_tab = "tab_age" then ageContent L d filtro_genero
  else corrContent L d

/-- The callback result: either the "⚠️ No hay datos disponibles." screen
or the KPI row plus the active tab's chart payload. -/
inductive DashOutput where
  | noData
  | bundle (tf tm : ℤ) (ipg : ℚ) (top : String) (content : Content)
deriving DecidableEq

/-- The callback `update_dashboard` (lines 130-215): on an empty frame
return the no-data screen (line 132); otherwise filter the view
(lines 134-137), compute the four KPIs (lines 139-142) and the active
tab's chart payload (lines 169-213). -/
def update_dashboard (L : Loaded) (filtro_ano : Option ℤ) (filtro_dep : List String)
    (filtro_genero active_tab : String) : DashOutput :=
  if L.rows.isEmpty then .noData
  else
    .bundle (kpi_tf (filterView L.rows filtro_ano filtro_dep))
      (kpi_tm (filterView L.rows filtro_ano filtro_dep))
      (kpi_ipg (filterView L.rows filtro_ano filtro_dep))
      (top_dep (filterView L.rows filtro_ano filtro_dep))
      (tabContent L (filterView L.rows filtro_ano filtro_dep) filtro_genero active_tab)

/-! Concrete sample data, used to instantiate theorems with hypotheses and
to exhibit counterexamples: the three-record dataset of the specification's
worked example (§8), and variants with fractional, negative and
year-less rows. -/

/-- The raw column list of the sample frame. -/
def sampleCols : List String :=
  ["anno_inf", "departamento", "matriculacion_fem_5", "matriculacion_masc_5"]

/-- Sample raw row: department "A", year 2020, female 10, male 5. -/
def rowA2020 : RawRow :=
  ⟨"A", some 2020, [("matriculacion_fem_5", some 10), ("matriculacion_masc_5", some 5)]⟩

/-- Sample raw row: department "A", year 2021, female 0, male 0. -/
def rowA2021 : RawRow :=
  ⟨"A", some 2021, [("matriculacion_fem_5", some 0), ("matriculacion_masc_5", some 0)]⟩

/-- Sample raw row: department "B", year 2020, female 2, male 8. -/
def rowB2020 : RawRow :=
  ⟨"B", some 2020, [("matriculacion_fem_5", some 2), ("matriculacion_masc_5", some 8)]⟩

/-- The loaded sample dataset of the specification's worked example. -/
def sampleLoaded : Loaded := mkLoaded sampleCols true [rowA2020, rowA2021, rowB2020]

/-- A raw row whose female enrollment cell holds the fractional value 1/2
(`pd.to_numeric` parses "0.5" to a float): exercises Python `int()`
truncation in the KPI sums. -/
def rowHalf : RawRow := ⟨"A", some 2020, [("matriculacion_fem_5", some (mkRat 1 2))]⟩

/-- The record the Schema Normalizer produces from `rowHalf`. -/
def recHalf : Record := normalizeRow sampleCols rowHalf

/-- A raw row with a negative parsed rate cell (`pd.to_numeric` parses
"-5" to -5; the coercion clips nothing). -/
def rowNeg : RawRow := ⟨"A", none, [("tasa_neta", some (-5))]⟩

/-- A raw row whose year cell is unparseable (year `none`). -/
def rowNoYear : RawRow := ⟨"C", none, [("matriculacion_fem_5", some 4)]⟩

/-- A dataset whose frame has the `anno_inf` column but in which every
record's year is NaN. -/
def sampleAllNaNYears : Loaded := mkLoaded sampleCols true [rowNoYear]

/-- A frame carrying three rate columns and three parity-index columns
next to the totals: the correlation selection picks all nine. -/
def sampleNineCols : Loaded :=
  mkLoaded ["departamento", "tasa_a", "tasa_b", "tasa_c", "ipg_a", "ipg_b", "ipg_c"]
    false [⟨"A", none, [("tasa_a", some 1), ("tasa_b", some 2), ("tasa_c", some 3),
      ("ipg_a", some 1), ("ipg_b", some 1), ("ipg_c", some 1)]⟩]

/-! Helper lemmas. -/

/-- A successful association-list lookup pins down a member of the list. -/
theorem lookup_mem {β : Type} {l : List (String × β)} {c : String} {v : β}
    (h : List.lookup c l = some v) : (c, v) ∈ l := by
  induction l with
  | nil => simp [List.lookup] at h
  | cons p rest ih =>
    obtain ⟨k, b⟩ := p
    by_cases hck : c == k
    · rw [List.lookup, hck] at h
      obtain rfl : b = v := by simpa using h
      obtain rfl : c = k := by simpa using hck
      exact List.mem_cons_self _ _
    · rw [List.lookup, Bool.of_not_eq_true hck] at h
      exact List.mem_cons_of_mem _ (ih h)

/-! ## C2 — Schema Normalizer invariants -/

/-- C2 (amended): for every record the Schema Normalizer produces — from
any raw input whatsoever — the derived `TOTAL` equals
`TOTAL_FEM + TOTAL_MASC` exactly, both as fields and as frame columns,
and every raw numeric cell survives into the record (coerced, never
dropped), an unparseable cell as the value `0` (never null); moreover,
whenever the parsed raw values are all non-negative, so is every numeric
field. (The unconditional non-negativity of the original claim fails: the
coercion preserves negative parsed values, see the counterexample.) -/
theorem C2_normalizer_total_and_coercion (cols : List String) (rr : RawRow) :
    (normalizeRow cols rr).TOTAL
        = (normalizeRow cols rr).TOTAL_FEM + (normalizeRow cols rr).TOTAL_MASC
      ∧ (normalizeRow cols rr).cell "TOTAL"
        = (normalizeRow cols rr).cell "TOTAL_FEM" + (normalizeRow cols rr).cell "TOTAL_MASC"
      ∧ (∀ c v, (c, v) ∈ rr.cells → (c, coerce v) ∈ (normalizeRow cols rr).num)
      ∧ (∀ c, (c, (none : Option ℚ)) ∈ rr.cells → (c, (0:ℚ)) ∈ (normalizeRow cols rr).num)
      ∧ ((∀ p ∈ rr.cells, ∀ x, p.2 = some x → (0:ℚ) ≤ x)
          → ∀ p ∈ (normalizeRow cols rr).num, (0:ℚ) ≤ p.2) := by
  refine ⟨rfl, ?_, ?_, ?_, ?_⟩
  · simp [Record.cell, normalizeRow, List.lookup,
      show (("TOTAL_FEM" == "TOTAL") = false) from by decide,
      show (("TOTAL_MASC" == "TOTAL") = false) from by decide,
      show (("TOTAL_MASC" == "TOTAL_FEM") = false) from by decide]
  · intro c v hcv
    simp only [normalizeRow]
    exact .tail _ (.tail _ (.tail _ (List.mem_map.mpr ⟨(c, v), hcv, rfl⟩)))
  · intro c hc
    simp only [normalizeRow]
    refine .tail _ (.tail _ (.tail _ (List.mem_map.mpr ⟨(c, none), hc, rfl⟩)))
  · intro hnn
    have hco : ∀ q ∈ rr.cells.map (fun p => (p.1, coerce p.2)), (0:ℚ) ≤ q.2 := by
      intro q hq
      obtain ⟨p, hp, rfl⟩ := List.mem_map.mp hq
      cases hv : p.2 with
      | none => simp [coerce, hv]
      | some x => simpa [coerce, hv] using hnn p hp x hv
    have hlook : ∀ c : String,
        (0:ℚ) ≤ (List.lookup c (rr.cells.map (fun p => (p.1, coerce p.2)))).getD 0 := by
      intro c
      cases hl : List.lookup c (rr.cells.map (fun p => (p.1, coerce p.2))) with
      | none => simp
      | some v => simpa using hco _ (lookup_mem hl)
    have htf : (0:ℚ) ≤ ((cols.filter isFemCol).map
        (fun c => (List.lookup c (rr.cells.map (fun p => (p.1, coerce p.2)))).getD 0)).sum := by
      refine List.sum_nonneg ?_
      intro x hx
      obtain ⟨c, _, rfl⟩ := List.mem_map.mp hx
      exact hlook c
    have htm : (0:ℚ) ≤ ((cols.filter isMascCol).map
        (fun c => (List.lookup c (rr.cells.map (fun p => (p.1, coerce p.2)))).getD 0)).sum := by
      refine List.sum_nonneg ?_
      intro x hx
      obtain ⟨c, _, rfl⟩ := List.mem_map.mp hx
      exact hlook c
    intro p hp
    simp only [normalizeRow, List.mem_cons] at hp
    rcases hp with rfl | rfl | rfl | hp
    · exact add_nonneg htf htm
    · exact htf
    · exact htm
    · exact hco p hp

/-- C2 counterexample: the Normalizer does not force non-negativity — a
raw cell parsing to -5 (e.g. the string "-5") comes through as the
negative field value -5. -/
theorem C2_counterexample_negative_cell :
    ("tasa_neta", (-5 : ℚ)) ∈ (normalizeRow ["tasa_neta"] rowNeg).num
      ∧ ¬ ((0:ℚ) ≤ (normalizeRow ["tasa_neta"] rowNeg).cell "tasa_neta") := by
  with_unfolding_all decide

/-- C2 witness: the unconditional total invariant exercised on both the
worked example's row and the row with a negative parsed cell, and the
conditional non-negativity discharged on the former. -/
theorem C2_witness_sampleRow :
    (normalizeRow sampleCols rowA2020).TOTAL
        = (normalizeRow sampleCols rowA2020).TOTAL_FEM
          + (normalizeRow sampleCols rowA2020).TOTAL_MASC
      ∧ (normalizeRow ["tasa_neta"] rowNeg).TOTAL
        = (normalizeRow ["tasa_neta"] rowNeg).TOTAL_FEM
          + (normalizeRow ["tasa_neta"] rowNeg).TOTAL_MASC
      ∧ ∀ p ∈ (normalizeRow sampleCols rowA2020).num, (0:ℚ) ≤ p.2 :=
  ⟨(C2_normalizer_total_and_coercion sampleCols rowA2020).1,
    (C2_normalizer_total_and_coercion ["tasa_neta"] rowNeg).1,
    (C2_normalizer_total_and_coercion sampleCols rowA2020).2.2.2.2
      (by with_unfolding_all decide)⟩

/-! ## C1 — the KPI summary -/

/-- The running first-maximum scan stays inside the candidates. -/
theorem idxmaxAux_mem (b : String × ℚ) (l : List (String × ℚ)) :
    idxmaxAux b l ∈ b :: l := by
  induction l generalizing b with
  | nil => exact List.mem_cons_self _ _
  | cons p rest ih =>
    rw [idxmaxAux]
    have hq : (if b.2 < p.2 then p else b) ∈ b :: p :: rest := by
      split
      · exact .tail _ (.head _)
      · exact .head _
    rcases List.mem_cons.mp (ih (if b.2 < p.2 then p else b)) with h | h
    · rw [h]; exact hq
    · exact .tail _ (.tail _ h)

/-- The running first-maximum scan dominates every candidate's value. -/
theorem idxmaxAux_le (b : String × ℚ) (l : List (String × ℚ)) :
    ∀ p ∈ b :: l, p.2 ≤ (idxmaxAux b l).2 := by
  induction l generalizing b with
  | nil =>
    intro p hp
    rcases List.mem_cons.mp hp with rfl | h
    · exact le_refl _
    · simp at h
  | cons q rest ih =>
    intro p hp
    rw [idxmaxAux]
    have hble : b.2 ≤ (if b.2 < q.2 then q else b).2 := by
      by_cases hbq : b.2 < q.2
      · rw [if_pos hbq]; exact le_of_lt hbq
      · rw [if_neg hbq]
    have hqle : q.2 ≤ (if b.2 < q.2 then q else b).2 := by
      by_cases hbq : b.2 < q.2
      · rw [if_pos hbq]
      · rw [if_neg hbq]; exact le_of_not_lt hbq
    rcases List.mem_cons.mp hp with rfl | hp2
    · exact le_trans hble (ih _ _ (List.mem_cons_self _ _))
    · rcases List.mem_cons.mp hp2 with rfl | hp3
      · exact le_trans hqle (ih _ _ (List.mem_cons_self _ _))
      · exact ih _ _ (List.mem_cons_of_mem _ hp3)

/-- A non-empty view groups into a non-empty department series. -/
theorem groupDept_ne_nil {d : List Record} (hne : d ≠ []) : groupDept d ≠ [] := by
  have h1 : d.map Record.departamento ≠ [] := by
    simpa [List.map_eq_nil_iff] using hne
  have h2 : (d.map Record.departamento).dedup ≠ [] := by
    simpa [List.dedup_eq_nil] using h1
  have h3 : deptKeys d ≠ [] := by
    unfold deptKeys
    intro h
    exact h2 (List.perm_nil.mp ((List.perm_insertionSort nameLe _).symm.trans (h ▸ List.Perm.refl _)))
  cases hk : deptKeys d with
  | nil => exact absurd hk h3
  | cons k ks => simp [groupDept, hk]

/-- Truncation is the identity on integral rationals. -/
theorem pyInt_cast_of_den_one {q : ℚ} (h : q.den = 1) : (pyInt q : ℚ) = q := by
  rw [pyInt, h]
  simp only [Nat.cast_one, Int.tdiv_one]
  exact (Rat.den_eq_one_iff q).mp h

/-- C1 (amended): the KPI total_female / total_male are the Python-`int`
truncations (toward zero) of the view's summed `TOTAL_FEM` / `TOTAL_MASC`
— equal to the sums exactly whenever those sums are integral;
`parity_index = round(total_female / total_male, 2)` on those integer
KPIs when total_male > 0 and exactly 0 otherwise (including every
total_female and negative-sum corner); and `top_department` attains the
maximal summed `TOTAL` over the view, with the sentinel "-" (no error) on
an empty view. (The original claim's "total_female equal to the sum"
fails on fractional data, see the counterexample.) -/
theorem C1_kpi_summary (d : List Record) :
    kpi_tf d = pyInt (d.map Record.TOTAL_FEM).sum
      ∧ kpi_tm d = pyInt (d.map Record.TOTAL_MASC).sum
      ∧ (((d.map Record.TOTAL_FEM).sum).den = 1
          → (kpi_tf d : ℚ) = (d.map Record.TOTAL_FEM).sum)
      ∧ (((d.map Record.TOTAL_MASC).sum).den = 1
          → (kpi_tm d : ℚ) = (d.map Record.TOTAL_MASC).sum)
      ∧ (0 < kpi_tm d → kpi_ipg d = pyRound2 ((kpi_tf d : ℚ) / (kpi_tm d : ℚ)))
      ∧ (kpi_tm d ≤ 0 → kpi_ipg d = 0)
      ∧ (d = [] → top_dep d = "-")
      ∧ (d ≠ [] → ∃ v, (top_dep d, v) ∈ groupDept d ∧ ∀ p ∈ groupDept d, p.2 ≤ v) := by
  refine ⟨rfl, rfl, ?_, ?_, ?_, ?_, ?_, ?_⟩
  · exact fun h => pyInt_cast_of_den_one h
  · exact fun h => pyInt_cast_of_den_one h
  · intro h
    rw [kpi_ipg, if_pos h]
  · intro h
    rw [kpi_ipg, if_neg (not_lt.mpr h)]
  · rintro rfl
    rfl
  · intro hne
    obtain ⟨g, gs, hG⟩ : ∃ g gs, groupDept d = g :: gs := by
      cases h : groupDept d with
      | nil => exact absurd h (groupDept_ne_nil hne)
      | cons g gs => exact ⟨g, gs, rfl⟩
    have htop : top_dep d = (idxmaxAux g gs).1 := by
      unfold top_dep
      rw [if_neg (by simpa using hne), hG]
    refine ⟨(idxmaxAux g gs).2, ?_, ?_⟩
    · rw [htop, hG, Prod.mk.eta]
      exact idxmaxAux_mem g gs
    · intro p hp
      rw [hG] at hp
      exact idxmaxAux_le g gs p hp

/-- C1 counterexample: on a record whose female total is the float 0.5,
`int(d["TOTAL_FEM"].sum())` is 0, not the sum — the KPI is the truncation,
not the sum itself. -/
theorem C1_counterexample_fractional_sum :
    kpi_tf [recHalf] = 0
      ∧ ([recHalf].map Record.TOTAL_FEM).sum = mkRat 1 2
      ∧ (kpi_tf [recHalf] : ℚ) ≠ ([recHalf].map Record.TOTAL_FEM).sum := by
  with_unfolding_all decide

/-- C1 witness: the parity guard and the empty-view sentinel exercised on
concrete views (the worked example's dataset and the empty view). -/
theorem C1_witness_sample :
    kpi_ipg sampleLoaded.rows
        = pyRound2 ((kpi_tf sampleLoaded.rows : ℚ) / (kpi_tm sampleLoaded.rows : ℚ))
      ∧ top_dep ([] : List Record) = "-" :=
  ⟨(C1_kpi_summary sampleLoaded.rows).2.2.2.2.1 (by with_unfolding_all decide),
    (C1_kpi_summary ([] : List Record)).2.2.2.2.2.2.1 rfl⟩

/-! ## C3 — empty department set imposes no restriction -/

/-- C3: with an empty department selection the Filter Evaluator returns
exactly the year-filtered view — the empty set passes all departments
(`if filtro_dep and len(filtro_dep) > 0` is false on line 136). In
particular every record passing the year filter is in the output
whatever its department; the output stays inside the dataset; it is
empty only when the year-filtered view itself is — the opposite of a
"select none" reading, which would always produce the empty view; and
with no year filter either, the whole dataset passes. -/
theorem C3_empty_departments_no_restriction (d : List Record) (filtro_ano : Option ℤ) :
    filterView d filtro_ano [] = applyYearFilter filtro_ano d
      ∧ (∀ r ∈ applyYearFilter filtro_ano d, r ∈ filterView d filtro_ano [])
      ∧ (∀ r ∈ filterView d filtro_ano [], r ∈ d)
      ∧ (filterView d filtro_ano [] = [] ↔ applyYearFilter filtro_ano d = [])
      ∧ (filtro_ano = none → filterView d filtro_ano [] = d) := by
  refine ⟨rfl, fun r h => h, ?_, Iff.rfl, ?_⟩
  · intro r h
    have h2 : r ∈ applyYearFilter filtro_ano d := h
    cases filtro_ano with
    | none => exact h2
    | some y =>
      simp only [applyYearFilter] at h2
      by_cases hy : y = 0
      · rwa [if_pos hy] at h2
      · rw [if_neg hy] at h2
        exact List.mem_of_mem_filter h2
  · rintro rfl
    rfl

/-! ## C4 — the two filters commute -/

/-- C4: applying the year filter then the department filter gives the same
view as the opposite order — both compose by conjunction of row
predicates. -/
theorem C4_filters_commute (d : List Record) (filtro_ano : Option ℤ)
    (filtro_dep : List String) :
    applyDeptFilter filtro_dep (applyYearFilter filtro_ano d)
      = applyYearFilter filtro_ano (applyDeptFilter filtro_dep d) := by
  cases filtro_ano with
  | none => rfl
  | some y =>
    by_cases hy : y = 0
    · simp [applyYearFilter, hy]
    · by_cases hd : filtro_dep.isEmpty
      · simp [applyYearFilter, applyDeptFilter, hy, hd]
      · simp [applyYearFilter, applyDeptFilter, hy, hd, List.filter_filter]
        exact List.filter_congr fun x _ => Bool.and_comm _ _

/-! ## C5 — the department ranking -/

/-- C5: the department ranking groups the view by department and sums
`TOTAL` (every entry's value is its department's summed total); it
returns `min 15 #departments` entries, so never more than 15; the
entries it returns form a top-15 — every grouped department left out sums
no higher than any department shown; and the displayed sequence is sorted
ascending by total, ties resolved by department name ascending
(`rankAscRel`). -/
theorem C5_department_ranking (d : List Record) :
    (deptRanking d).length = min 15 (groupDept d).length
      ∧ (deptRanking d).length ≤ 15
      ∧ (deptRanking d).Pairwise rankAscRel
      ∧ (∀ q ∈ deptRanking d, q ∈ groupDept d)
      ∧ (∀ q ∈ deptRanking d, q.2 = deptTotal d q.1)
      ∧ (∀ p ∈ groupDept d, p ∉ deptRanking d → ∀ q ∈ deptRanking d, p.2 ≤ q.2) := by
  have hperm1 : (List.insertionSort rankDescRel (groupDept d)).Perm (groupDept d) :=
    List.perm_insertionSort _ _
  have hperm2 : (deptRanking d).Perm (top15 d) := List.perm_insertionSort _ _
  have hsortedD :
      (List.insertionSort rankDescRel (groupDept d)).Pairwise rankDescRel :=
    List.sorted_insertionSort _ _
  have hmem_take : ∀ x, x ∈ deptRanking d ↔ x ∈ top15 d := fun _ => hperm2.mem_iff
  have hmemG : ∀ q ∈ deptRanking d, q ∈ groupDept d := by
    intro q hq
    exact hperm1.mem_iff.mp (List.take_subset _ _ ((hmem_take q).mp hq))
  have hlen : (deptRanking d).length = min 15 (groupDept d).length := by
    rw [hperm2.length_eq, top15, List.length_take, hperm1.length_eq]
  refine ⟨hlen, ?_, List.sorted_insertionSort _ _, hmemG, ?_, ?_⟩
  · rw [hlen]; exact min_le_left _ _
  · intro q hq
    obtain ⟨k, _, rfl⟩ := List.mem_map.mp (hmemG q hq)
    rfl
  · intro p hp hnp q hq
    have hpds : p ∈ List.insertionSort rankDescRel (groupDept d) := hperm1.mem_iff.mpr hp
    have hqtake : q ∈ (List.insertionSort rankDescRel (groupDept d)).take 15 :=
      (hmem_take q).mp hq
    have hptake : p ∉ (List.insertionSort rankDescRel (groupDept d)).take 15 :=
      fun h => hnp ((hmem_take p).mpr h)
    have hsplit : p ∈ (List.insertionSort rankDescRel (groupDept d)).take 15
        ++ (List.insertionSort rankDescRel (groupDept d)).drop 15 := by
      rw [List.take_append_drop]; exact hpds
    have hpdrop : p ∈ (List.insertionSort rankDescRel (groupDept d)).drop 15 := by
      rcases List.mem_append.mp hsplit with h | h
      · exact absurd h hptake
      · exact h
    have hpairs : ((List.insertionSort rankDescRel (groupDept d)).take 15
        ++ (List.insertionSort rankDescRel (groupDept d)).drop 15).Pairwise rankDescRel := by
      rw [List.take_append_drop]; exact hsortedD
    rcases (List.pairwise_append.mp hpairs).2.2 q hqtake p hpdrop with h | ⟨he, _⟩
    · exact le_of_lt h
    · exact le_of_eq he.symm

/-- C5 witness: the ranking evaluated on the worked example's dataset —
two departments, displayed ascending by total. -/
theorem C5_witness_sample :
    (deptRanking sampleLoaded.rows).length ≤ 15
      ∧ deptRanking sampleLoaded.rows = [("B", 10), ("A", 15)] :=
  ⟨(C5_department_ranking sampleLoaded.rows).2.1, by with_unfolding_all decide⟩

/-! ## C6 — the yearly trend -/

/-- C6 (amended): the trend groups the records carrying a parsed year by
that year, summing the three totals per year, in a sequence sorted
ascending by year; the explicit "no year data" marker is produced exactly
when the frame lacks the `anno_inf` column — a view whose records all
have NaN years yields an ordinary (empty) series instead, so the marker
does not cover every "year data absent from the view" case (see the
counterexample). -/
theorem C6_yearly_trend_grouping (L : Loaded) (d : List Record) :
    (L.hasYearCol = false → trendContent L d = .trendNoYearData)
      ∧ (L.hasYearCol = true → trendContent L d = .trendSeries (yearlyTrend d))
      ∧ (yearlyTrend d).Pairwise (fun a b => a.1 ≤ b.1)
      ∧ (∀ y : ℤ, y ∈ yearKeys d ↔ ∃ r ∈ d, r.anno_inf = some y)
      ∧ (∀ p ∈ yearlyTrend d, p = yearRow d p.1) := by
  refine ⟨?_, ?_, ?_, ?_, ?_⟩
  · intro h
    simp [trendContent, h]
  · intro h
    simp [trendContent, h]
  · have hs : List.Pairwise (fun a b : ℤ => a ≤ b) (yearKeys d) :=
      List.sorted_insertionSort _ _
    exact List.pairwise_map.mpr (hs.imp fun h => h)
  · intro y
    exact ((List.perm_insertionSort _ _).mem_iff).trans
      (List.mem_dedup.trans List.mem_filterMap)
  · intro p hp
    obtain ⟨y, _, rfl⟩ := List.mem_map.mp hp
    rfl

/-- C6 counterexample: a dataset whose frame has the year column but whose
only record carries a NaN year — year data is entirely absent from the
view, yet the trend is the silently empty series, not the no-year-data
marker. -/
theorem C6_counterexample_all_nan_years :
    (∀ r ∈ sampleAllNaNYears.rows, r.anno_inf = none)
      ∧ trendContent sampleAllNaNYears sampleAllNaNYears.rows = .trendSeries []
      ∧ trendContent sampleAllNaNYears sampleAllNaNYears.rows ≠ .trendNoYearData := by
  with_unfolding_all decide

/-- C6 witness: both trend branches exercised — the worked example's frame
produces its grouped series, a frame without the year column produces the
marker. -/
theorem C6_witness_both_branches :
    trendContent sampleLoaded sampleLoaded.rows = .trendSeries (yearlyTrend sampleLoaded.rows)
      ∧ trendContent emptyLoaded [] = .trendNoYearData :=
  ⟨(C6_yearly_trend_grouping sampleLoaded sampleLoaded.rows).2.1 rfl,
    (C6_yearly_trend_grouping emptyLoaded []).1 rfl⟩

/-! ## C7 — the correlation column selection -/

/-- C7 (amended): the correlation selection is the availability-filtered
concatenation of the three total columns, the first three rate (`tasa*`)
columns and the first three parity-index (`ipg*`) columns — each segment
at most 3, hence at most NINE columns in all, not eight as claimed (see
the counterexample); with at most one usable column the branch returns
the explicit "insufficient data" sentinel, with two or more it returns
the Pearson-matrix payload over the filtered rows, never a degenerate
matrix. -/
theorem C7_correlation_columns (L : Loaded) (d : List Record) :
    corrCols L
        = (["TOTAL", "TOTAL_FEM", "TOTAL_MASC"].filter (fun c => L.cols.contains c))
          ++ ((L.cols.filter isTasaCol).take 3).filter (fun c => L.cols.contains c)
          ++ ((L.cols.filter isIpgCol).take 3).filter (fun c => L.cols.contains c)
      ∧ ((["TOTAL", "TOTAL_FEM", "TOTAL_MASC"].filter (fun c => L.cols.contains c)).length ≤ 3)
      ∧ (((L.cols.filter isTasaCol).take 3).filter (fun c => L.cols.contains c)).length ≤ 3
      ∧ (((L.cols.filter isIpgCol).take 3).filter (fun c => L.cols.contains c)).length ≤ 3
      ∧ (corrCols L).length ≤ 9
      ∧ ((corrCols L).length ≤ 1 → corrContent L d = .corrInsufficient)
      ∧ (1 < (corrCols L).length → corrContent L d = .corrChart (corrCols L) d) := by
  have hdecomp : corrCols L
      = (["TOTAL", "TOTAL_FEM", "TOTAL_MASC"].filter (fun c => L.cols.contains c))
        ++ ((L.cols.filter isTasaCol).take 3).filter (fun c => L.cols.contains c)
        ++ ((L.cols.filter isIpgCol).take 3).filter (fun c => L.cols.contains c) := by
    rw [corrCols, List.filter_append, List.filter_append]
  have hA : (["TOTAL", "TOTAL_FEM", "TOTAL_MASC"].filter
      (fun c => L.cols.contains c)).length ≤ 3 := by
    simpa using List.length_filter_le (fun c => L.cols.contains c)
      ["TOTAL", "TOTAL_FEM", "TOTAL_MASC"]
  have hB : (((L.cols.filter isTasaCol).take 3).filter
      (fun c => L.cols.contains c)).length ≤ 3 :=
    le_trans (List.length_filter_le _ _) (by rw [List.length_take]; exact min_le_left _ _)
  have hC : (((L.cols.filter isIpgCol).take 3).filter
      (fun c => L.cols.contains c)).length ≤ 3 :=
    le_trans (List.length_filter_le _ _) (by rw [List.length_take]; exact min_le_left _ _)
  refine ⟨hdecomp, hA, hB, hC, ?_, ?_, ?_⟩
  · rw [hdecomp, List.length_append, List.length_append]
    omega
  · intro h
    rw [corrContent, if_neg (not_lt.mpr h)]
  · intro h
    rw [corrContent, if_pos h]

/-- C7 counterexample: with three rate columns and three parity-index
columns available next to the three totals, the selection holds nine
columns — the claimed maximum of eight is exceeded. -/
theorem C7_counterexample_nine_columns :
    (corrCols sampleNineCols).length = 9
      ∧ ¬ ((corrCols sampleNineCols).length ≤ 8) := by
  with_unfolding_all decide

/-- C7 witness: both guard branches exercised — the empty frame has no
usable column and yields the sentinel, the worked example's frame has its
three total columns and yields the matrix payload. -/
theorem C7_witness_both_branches :
    corrContent emptyLoaded [] = Content.corrInsufficient
      ∧ corrContent sampleLoaded sampleLoaded.rows
        = Content.corrChart (corrCols sampleLoaded) sampleLoaded.rows :=
  ⟨(C7_correlation_columns emptyLoaded []).2.2.2.2.2.1 (by decide),
    (C7_correlation_columns sampleLoaded sampleLoaded.rows).2.2.2.2.2.2
      (by with_unfolding_all decide)⟩

/-! ## C8 — the load boundary fails closed -/

/-- C8: when the raw load fails, the boundary substitutes an empty dataset
and empty dimension catalogs instead of raising, and the dashboard
callback on that empty state surfaces the "no data available" result for
every filter state and tab. -/
theorem C8_load_failure_fails_closed (msg : String) (filtro_ano : Option ℤ)
    (filtro_dep : List String) (filtro_genero active_tab : String) :
    loadData (.error msg) = emptyLoaded
      ∧ (loadData (.error msg)).rows = []
      ∧ (loadData (.error msg)).years = []
      ∧ (loadData (.error msg)).depts = []
      ∧ update_dashboard (loadData (.error msg)) filtro_ano filtro_dep
          filtro_genero active_tab = .noData :=
  ⟨rfl, rfl, rfl, rfl, rfl⟩

/-! ## C9 — the age-bracket split and the gender selector -/

/-- C9: the age split always sums over exactly the five fixed age groups,
and only the series the gender selector picks appear in the payload — the
unselected series is absent (`none`), not zeroed; in particular the
selector `masc` yields no female series at all. -/
theorem C9_age_split_series_shape (L : Loaded) (d : List Record) :
    ageContent L d "masc"
        = .ageChart (age_groups.map (fun g => g.1)) none (some (ageMasc L d))
      ∧ ageContent L d "fem"
        = .ageChart (age_groups.map (fun g => g.1)) (some (ageFem L d)) none
      ∧ ageContent L d "both"
        = .ageChart (age_groups.map (fun g => g.1)) (some (ageFem L d)) (some (ageMasc L d))
      ∧ age_groups.length = 5
      ∧ ageFem L d = age_groups.map (fun g => ageSum L d g.2.1)
      ∧ ageMasc L d = age_groups.map (fun g => ageSum L d g.2.2) := by
  refine ⟨?_, ?_, ?_, rfl, rfl, rfl⟩
  · unfold ageContent
    rw [if_neg (show ¬("masc" = "both" ∨ "masc" = "fem") by decide),
      if_pos (show ("masc" = "both" ∨ "masc" = "masc") by decide)]
  · unfold ageContent
    rw [if_pos (show ("fem" = "both" ∨ "fem" = "fem") by decide),
      if_neg (show ¬("fem" = "both" ∨ "fem" = "masc") by decide)]
  · unfold ageContent
    rw [if_pos (show ("both" = "both" ∨ "both" = "fem") by decide),
      if_pos (show ("both" = "both" ∨ "both" = "masc") by decide)]

/-! ## C10 — unknown tabs fall through to the correlation branch -/

/-- C10: on a non-empty dataset, every active-tab value other than
`tab_trend`, `tab_dept` and `tab_age` — the known `tab_corr` as well as
any unrecognized identifier — lands in the final `else` and produces the
correlation payload; the dispatch is total, never an error. -/
theorem C10_unknown_tab_gives_correlation (L : Loaded) (filtro_ano : Option ℤ)
    (filtro_dep : List String) (filtro_genero active_tab : String)
    (hne : L.rows ≠ []) (h1 : active_tab ≠ "tab_trend")
    (h2 : active_tab ≠ "tab_dept") (h3 : active_tab ≠ "tab_age") :
    update_dashboard L filtro_ano filtro_dep filtro_genero active_tab
      = .bundle (kpi_tf (filterView L.rows filtro_ano filtro_dep))
          (kpi_tm (filterView L.rows filtro_ano filtro_dep))
          (kpi_ipg (filterView L.rows filtro_ano filtro_dep))
          (top_dep (filterView L.rows filtro_ano filtro_dep))
          (corrContent L (filterView L.rows filtro_ano filtro_dep)) := by
  unfold update_dashboard tabContent
  rw [if_neg (by simpa using hne), if_neg h1, if_neg h2, if_neg h3]

/-- C10 witness: the sample dataset with the unrecognized tab id
"tab_oops". -/
theorem C10_witness_unknown_tab :
    update_dashboard sampleLoaded none [] "both" "tab_oops"
      = .bundle (kpi_tf (filterView sampleLoaded.rows none []))
          (kpi_tm (filterView sampleLoaded.rows none []))
          (kpi_ipg (filterView sampleLoaded.rows none []))
          (top_dep (filterView sampleLoaded.rows none []))
          (corrContent sampleLoaded (filterView sampleLoaded.rows none [])) :=
  C10_unknown_tab_gives_correlation sampleLoaded none [] "both" "tab_oops"
    (by with_unfolding_all decide) (by decide) (by decide) (by decide)

end App
